import Mathlib

/-!
Verification development for the Aadhaar verification backend route module
(backend/src/routes/aadhaarVerification.js). The handlers are embedded as
pure Lean functions over explicit request data and an explicit record
store; JavaScript truthiness on the string fields involved is modelled
with Option String (none = missing/undefined/null) and the empty string
as the only falsy string.
-/

namespace AadhaarKyc

/-- A stored dynamic-field entry on a verification record: a label with a
possibly missing value (Mongo subdocuments may lack the value key). -/
structure StoredField where
  label : String
  value : Option String
deriving DecidableEq, Repr

/-- An active custom-field definition as selected by the listing handler:
fieldName, an optional fieldLabel and an optional defaultValue
(defaultValue is stringified by the handler, so it is modelled already as
a string). -/
structure FieldKey where
  fieldName : String
  fieldLabel : Option String
  defaultValue : Option String
deriving DecidableEq, Repr

/-- The display label of a definition: `f.fieldLabel || f.fieldName`
(JS: an empty or missing fieldLabel falls back to fieldName). -/
def labelOrName (f : FieldKey) : String :=
  match f.fieldLabel with
  | some s => if s = "" then f.fieldName else s
  | none => f.fieldName

/-- The find predicate of getValue: `f.label === label || f.label === fieldName`,
where the first argument is the raw fieldLabel (strict equality with
undefined is false). -/
def matchKey (fl : Option String) (fn : String) (sf : StoredField) : Bool :=
  (some sf.label == fl) || (sf.label == fn)

/-- getValue from the listing handler: the first stored entry matching
label-or-fieldName, with `found.value || ''` collapsing a missing or
empty value to the empty string; no match gives the empty string. -/
def getValue (existing : List StoredField) (fl : Option String) (fn : String) : String :=
  match existing.find? (matchKey fl fn) with
  | some found => found.value.getD ""
  | none => ""

/-- The value placed in a listed dynamic field:
`getValue(f.fieldLabel, f.fieldName) || (f.defaultValue != null ? String(f.defaultValue) : '')`. -/
def resolveValue (existing : List StoredField) (f : FieldKey) : String :=
  let g := getValue existing f.fieldLabel f.fieldName
  if g = "" then (match f.defaultValue with | some d => d | none => "") else g

/-- The dynamicFields rewriting done per record by the GET /records
handler: with at least one active definition, one entry per definition in
definition order; with no active definitions, a missing or empty stored
list becomes the empty list and a non-empty stored list is kept as is. -/
def populateDynamicFields (fieldKeys : List FieldKey)
    (stored : Option (List StoredField)) : List StoredField :=
  let existing := stored.getD []
  if fieldKeys.isEmpty then existing
  else fieldKeys.map (fun f => ⟨labelOrName f, some (resolveValue existing f)⟩)

/-- The value selection exactly as claim C1 words it: the stored matched
value whenever a match exists (regardless of emptiness), else the
default, else the empty string. Written from the claim, to be compared
with resolveValue. -/
def claimValue (existing : List StoredField) (f : FieldKey) : String :=
  match existing.find? (matchKey f.fieldLabel f.fieldName) with
  | some found => found.value.getD ""
  | none => match f.defaultValue with | some d => d | none => ""

/-- The value selection of the amended claim: the stored matched value
when the match exists and its value is non-empty, else the stringified
default when non-null, else the empty string. -/
def amendedValue (existing : List StoredField) (f : FieldKey) : String :=
  match existing.find? (matchKey f.fieldLabel f.fieldName) with
  | some found =>
      if found.value.getD "" = "" then
        (match f.defaultValue with | some d => d | none => "")
      else found.value.getD ""
  | none => match f.defaultValue with | some d => d | none => ""

theorem resolveValue_eq_amendedValue (existing : List StoredField) (f : FieldKey) :
    resolveValue existing f = amendedValue existing f := by
  unfold resolveValue amendedValue getValue
  cases h : existing.find? (matchKey f.fieldLabel f.fieldName) with
  | none => simp
  | some found => by_cases hv : found.value.getD "" = "" <;> simp [hv]

/-! ## Listing: decrypt-and-transform of each record (GET /records) -/

/-- The slice of a verification record the listing transform touches:
careOf, the care_of value nested in the stored API response, and the
stored dynamic-field list (none = field missing on the document). -/
structure VRecord where
  rid : Nat
  careOf : Option String
  apiCareOf : Option String
  dynamicFields : Option (List StoredField)
deriving DecidableEq, Repr

/-- JS condition `decryptedRecord.careOf === '[ENCRYPTED]' || !decryptedRecord.careOf`. -/
def careOfNeedsFix : Option String → Bool
  | none => true
  | some s => (s == "[ENCRYPTED]") || (s == "")

/-- care_of extraction: when careOf is the encrypted placeholder or falsy
and the stored API response carries a truthy care_of, copy it over. -/
def fixCareOf (r : VRecord) : VRecord :=
  match r.apiCareOf with
  | some s => if s ≠ "" && careOfNeedsFix r.careOf then { r with careOf := some s } else r
  | none => r

/-- The per-record body of the listing map after a successful decrypt:
care_of extraction followed by the dynamicFields population. -/
def listTransform (fieldKeys : List FieldKey) (r : VRecord) : VRecord :=
  let r1 := fixCareOf r
  { r1 with dynamicFields := some (populateDynamicFields fieldKeys r1.dynamicFields) }

/-- decryptedRecords: each record is decrypted and transformed inside a
try block; when decryption throws (decrypt returns none) the raw record
is returned unchanged and the listing continues. The decryptData helper
lives in the model file, absent from the sources, so it is an arbitrary
fallible function here. -/
def decryptRecords (decrypt : VRecord → Option VRecord) (fieldKeys : List FieldKey)
    (records : List VRecord) : List VRecord :=
  records.map (fun record =>
    match decrypt record with
    | some decryptedRecord => listTransform fieldKeys decryptedRecord
    | none => record)

/-- The GET /records handler does not write to the record store: it maps
the fetched page through decryptRecords and returns it alongside the
unchanged store. -/
def getRecordsH (store : List VRecord) (decrypt : VRecord → Option VRecord)
    (fieldKeys : List FieldKey) : List VRecord × List VRecord :=
  (store, decryptRecords decrypt fieldKeys store)

/-! ## PATCH /records/:id — dynamic-fields update -/

/-- The character class of the JS \s escape, restricted to the ASCII
whitespace the inputs can carry. -/
def isWsChar (c : Char) : Bool :=
  c = ' ' || c = '\t' || c = '\n' || c = '\r' || c = '\x0b' || c = '\x0c'

/-- JS String.prototype.trim: drop whitespace from both ends. -/
def jsTrim (s : String) : String :=
  String.mk (((s.toList.dropWhile isWsChar).reverse.dropWhile isWsChar).reverse)

/-- One entry of the request body list: a JSON value that is either not
an object (dropped by the first filter) or an object with optional label
and value (modelled post-stringification). -/
inductive RawEntry
  | notObject
  | obj (label : Option String) (value : Option String)
deriving DecidableEq, Repr

/-- First filter: `f && typeof f === 'object' && f.label != null`. -/
def hasLabel : RawEntry → Bool
  | .obj (some _) _ => true
  | _ => false

/-- Map step: `{label: String(f.label).trim(), value: f.value != null ? String(f.value).trim() : ''}`. -/
def trimEntry : RawEntry → StoredField
  | .obj (some l) v => ⟨jsTrim l, some (jsTrim (v.getD ""))⟩
  | _ => ⟨"", none⟩

/-- normalizedFields: a non-array body (missing, null, or any non-array)
gives the empty list; an array is filtered to labelled objects, trimmed
and stringified, then entries with empty labels are dropped. -/
def normalizeFields (dynamicFields : Option (List RawEntry)) : List StoredField :=
  match dynamicFields with
  | some fields => ((fields.filter hasLabel).map trimEntry).filter (fun f => f.label ≠ "")
  | none => []

/-- The slice of a record the PATCH handler touches: owner and stored
dynamic-field list. -/
structure PRecord where
  userId : Nat
  dynamicFields : List StoredField
deriving DecidableEq, Repr

/-- The PATCH /records/:id handler: 400 on an invalid id, 404 when the
record is missing, 403 when the requester is not the owner, otherwise
the stored list is replaced wholesale by the normalized body and 200 is
returned. The second component is the record state after the request. -/
def patchRecordsId (requesterId : Nat) (idValid : Bool) (record : Option PRecord)
    (body : Option (List RawEntry)) : Nat × Option PRecord :=
  if !idValid then (400, record)
  else match record with
  | none => (404, none)
  | some r =>
    if r.userId ≠ requesterId then (403, some r)
    else (200, some { r with dynamicFields := normalizeFields body })

/-- Method dispatch on the /records/:id route: router.route(...).patch(...)
sends PATCH to the update handler and .all(...) answers every other
method with 405 and an Allow header of PATCH. -/
inductive HttpMethod
  | get | post | patch | put | delete | head | options
deriving DecidableEq, Repr

inductive RecordsIdAction
  | patchHandler
  | methodNotAllowed (status : Nat) (allowHeader : String)
deriving DecidableEq, Repr

def dispatchRecordsId (m : HttpMethod) : RecordsIdAction :=
  match m with
  | .patch => .patchHandler
  | _ => .methodNotAllowed 405 "PATCH"

/-! ## Input validation shared by the OTP flows -/

/-- `aadhaarNumber.replace(/\s/g, '')`. -/
def stripWs (s : String) : String :=
  String.mk (s.toList.filter (fun c => !isWsChar c))

def isDigitChar (c : Char) : Bool := '0' ≤ c && c ≤ '9'

/-- `/^\d{12}$/.test(aadhaarNumber.replace(/\s/g, ''))`. -/
def aadhaarOk (s : String) : Bool :=
  (stripWs s).length = 12 && (stripWs s).toList.all isDigitChar

/-- `/^\d{6}$/.test(otp)`. -/
def otpOk (s : String) : Bool :=
  s.length = 6 && s.toList.all isDigitChar

/-! ## The external verification client

The aadhaarVerificationService module is not among the sources; its
return shapes are modelled from the spec. -/

/-- Modelled from the spec: the send-OTP operation of the external
Aadhaar client returns a transaction identifier (its details object in
the route code); none stands for the call throwing, which the handler
turns into a 500. -/
structure OtpSendDetails where
  transactionId : String
deriving DecidableEq, Repr

/-- The payload carried by the external verify response, reduced to the
status field the handlers compare against the VALID sentinel. -/
structure ApiData where
  status : Option String
deriving DecidableEq, Repr

/-- Modelled from the spec: the verify-OTP operation returns a raw
provider payload: a data object, an optional nested data.data object
(some providers wrap the payload once more), and a top-level status
field. -/
structure ExtVerifyResponse where
  data : ApiData
  dataInner : Option ApiData
  status : Option String
deriving DecidableEq, Repr

/-- `otpResult.data?.data || otpResult.data || {}` in the authenticated
verify-otp handler. -/
def extractApiData (r : ExtVerifyResponse) : ApiData :=
  match r.dataInner with
  | some d => d
  | none => r.data

/-! ## Record store and the OTP endpoints -/

/-- The slice of a persisted VerificationRecord the claims mention. -/
structure VerificationRecord where
  userId : Nat
  aadhaarNumber : String
  status : String
  dynamicFields : List StoredField
deriving DecidableEq, Repr

/-- Outcome of a send-OTP endpoint: the record store after the request,
the HTTP status, the transaction id surfaced in the response body, and
whether the external send-OTP operation was invoked. -/
structure SendOtpResult where
  store : List VerificationRecord
  status : Nat
  transactionId : Option String
  externalCalled : Bool
deriving DecidableEq, Repr

/-- POST /verify-single: requires aadhaarNumber and consentAccepted,
validates the 12-digit format, then calls the external send-OTP
operation; a throwing call surfaces as 500; nothing is ever written to
the record store. -/
def verifySingleH (store : List VerificationRecord) (aadhaarNumber : String)
    (consentAccepted : Bool) (ext : Option OtpSendDetails) : SendOtpResult :=
  if aadhaarNumber = "" then ⟨store, 400, none, false⟩
  else if !consentAccepted then ⟨store, 400, none, false⟩
  else if !aadhaarOk aadhaarNumber then ⟨store, 400, none, false⟩
  else match ext with
    | none => ⟨store, 500, none, true⟩
    | some d => ⟨store, 200, some d.transactionId, true⟩

/-- The owning user resolved by QR-code lookup, with its moduleAccess
capability list. -/
structure QrUser where
  uid : Nat
  moduleAccess : List String
deriving DecidableEq, Repr

/-- POST /verify-qr/:qrCode: resolves the user by an active QR code (404
when none), requires the qr-code capability (403), then runs the same
validation and send-OTP call as verify-single. -/
def verifyQrH (store : List VerificationRecord) (user : Option QrUser)
    (aadhaarNumber : String) (consentAccepted : Bool)
    (ext : Option OtpSendDetails) : SendOtpResult :=
  match user with
  | none => ⟨store, 404, none, false⟩
  | some u =>
    if !u.moduleAccess.contains "qr-code" then ⟨store, 403, none, false⟩
    else if aadhaarNumber = "" then ⟨store, 400, none, false⟩
    else if !consentAccepted then ⟨store, 400, none, false⟩
    else if !aadhaarOk aadhaarNumber then ⟨store, 400, none, false⟩
    else match ext with
      | none => ⟨store, 500, none, true⟩
      | some d => ⟨store, 200, some d.transactionId, true⟩

/-- POST /verify-otp: validates presence of aadhaarNumber, otp and
transactionId, then formats; calls the external verify operation; on a
response, persists exactly one record whose status is verified when
`apiData.status === 'VALID'` and rejected otherwise. -/
def verifyOtpH (store : List VerificationRecord) (uid : Nat)
    (aadhaarNumber otp transactionId : String) (dyn : List StoredField)
    (ext : Option ExtVerifyResponse) : List VerificationRecord × Nat :=
  if aadhaarNumber = "" || otp = "" || transactionId = "" then (store, 400)
  else if !aadhaarOk aadhaarNumber then (store, 400)
  else if !otpOk otp then (store, 400)
  else match ext with
    | none => (store, 500)
    | some r =>
      let apiData := extractApiData r
      let rec0 : VerificationRecord :=
        { userId := uid
          aadhaarNumber := stripWs aadhaarNumber
          status := if apiData.status = some "VALID" then "verified" else "rejected"
          dynamicFields := dyn }
      (store ++ [rec0], 200)

/-- POST /verify-otp-qr/:qrCode: QR user resolution and capability gate,
the same input validation, then the external verify call; persists one
record owned by the resolved user whose status is verified when the
response top-level `status === 'VALID'` and invalid otherwise; the body
customFields map is appended to the dynamic fields. -/
def verifyOtpQrH (store : List VerificationRecord) (user : Option QrUser)
    (aadhaarNumber otp transactionId : String) (dyn : List StoredField)
    (customFields : List (String × String))
    (ext : Option ExtVerifyResponse) : List VerificationRecord × Nat :=
  match user with
  | none => (store, 404)
  | some u =>
    if !u.moduleAccess.contains "qr-code" then (store, 403)
    else if aadhaarNumber = "" || otp = "" || transactionId = "" then (store, 400)
    else if !aadhaarOk aadhaarNumber then (store, 400)
    else if !otpOk otp then (store, 400)
    else match ext with
      | none => (store, 500)
      | some r =>
        let rec0 : VerificationRecord :=
          { userId := u.uid
            aadhaarNumber := stripWs aadhaarNumber
            status := if r.status = some "VALID" then "verified" else "invalid"
            dynamicFields := dyn ++ customFields.map (fun kv => ⟨kv.1, some kv.2⟩) }
        (store ++ [rec0], 200)

/-! ## Selfie endpoints (authorization paths) -/

/-- The requesting (or owning) User document: role and moduleAccess. -/
structure UserInfo where
  uid : Nat
  role : String
  moduleAccess : List String
deriving DecidableEq, Repr

/-- The stored selfie subdocument, reduced to which of the blob and the
legacy disk path are present and whether the legacy file exists. -/
structure SelfieBlob where
  hasData : Bool
  hasPath : Bool
  pathExists : Bool
deriving DecidableEq, Repr

/-- POST /records/:id/selfie: 400 without a file, 404 without a record,
403 for a non-owner, 403 without the selfie-upload capability (admins
exempt), else the upload succeeds. -/
def selfieUploadH (hasFile : Bool) (record : Option PRecord) (requesterId : Nat)
    (requester : Option UserInfo) : Nat :=
  if !hasFile then 400
  else match record with
    | none => 404
    | some r =>
      if r.userId ≠ requesterId then 403
      else match requester with
        | none => 403
        | some u =>
          if u.role ≠ "admin" && !u.moduleAccess.contains "selfie-upload" then 403
          else 200

/-- GET /records/:id/selfie: 404 without a record; non-admin non-owners
get 403; then the blob is served, falling back to an existing legacy
path, else 404. -/
def selfieGetH (record : Option (Nat × Option SelfieBlob)) (requesterId : Nat)
    (requester : Option UserInfo) : Nat :=
  match record with
  | none => 404
  | some ow =>
    let isAdmin := match requester with | some u => u.role = "admin" | none => false
    if !isAdmin && ow.1 ≠ requesterId then 403
    else match ow.2 with
      | none => 404
      | some s =>
        if s.hasData then 200
        else if s.hasPath && s.pathExists then 200
        else 404

/-! ## Claim theorems -/

/-- Claim C1 (counterexample): the claim says the listed value is the
stored value matched by label-or-fieldName whenever such a match exists,
but when the matched stored value is empty the handler falls through to
the default value: with one definition (fieldName a, fieldLabel A,
default d) and a stored entry (label A, empty value) the listing emits
value d, while the claim as stated demands the stored empty value. -/
theorem C1_counterexample :
    populateDynamicFields [⟨"a", some "A", some "d"⟩] (some [⟨"A", some ""⟩])
      = [⟨"A", some "d"⟩] ∧
    claimValue [⟨"A", some ""⟩] ⟨"a", some "A", some "d"⟩ = "" ∧
    ("d" : String) ≠ "" := by
  refine ⟨rfl, rfl, by decide⟩

/-- Claim C1 (amended): when at least one active definition exists, the
listed dynamicFields has exactly one entry per active definition in
definition order, labelled fieldLabel-or-fieldName, whose value is the
stored value matched by label-or-fieldName when such a match exists with
a non-empty value, falling back to the definition default value when
non-null, falling back to the empty string. -/
theorem C1_amended_listing (fieldKeys : List FieldKey)
    (stored : Option (List StoredField)) (h : fieldKeys ≠ []) :
    (populateDynamicFields fieldKeys stored).length = fieldKeys.length ∧
    ∀ (i : Nat) (fk : FieldKey), fieldKeys[i]? = some fk →
      (populateDynamicFields fieldKeys stored)[i]? =
        some ⟨labelOrName fk, some (amendedValue (stored.getD []) fk)⟩ := by
  have hne : fieldKeys.isEmpty = false := by
    cases fieldKeys with
    | nil => exact absurd rfl h
    | cons a l => rfl
  constructor
  · simp [populateDynamicFields, hne]
  · intro i fk hfk
    simp [populateDynamicFields, hne, List.getElem?_map, hfk,
      resolveValue_eq_amendedValue]

/-- Claim C1 witness: the amended theorem applied to one definition and
one stored record whose matched value is non-empty. -/
theorem C1_witness :
    (populateDynamicFields [⟨"a", some "A", some "d"⟩] (some [⟨"A", some "v"⟩]))[0]? =
      some ⟨"A", some "v"⟩ := by
  have h := (C1_amended_listing [⟨"a", some "A", some "d"⟩] (some [⟨"A", some "v"⟩])
    (by decide)).2 0 ⟨"a", some "A", some "d"⟩ rfl
  exact h.trans (by decide)

/-- Claim C2 (counterexample): the claim says that with no active
custom-field definitions every listed record has empty dynamicFields,
but the handler keeps a non-empty stored list unchanged in that case. -/
theorem C2_counterexample :
    populateDynamicFields [] (some [⟨"x", some "y"⟩]) = [⟨"x", some "y"⟩] ∧
    ([⟨"x", some "y"⟩] : List StoredField) ≠ [] := by
  refine ⟨rfl, by decide⟩

/-- Claim C2 (amended): with no active definitions a record whose stored
dynamic-field list is missing or empty is listed with empty
dynamicFields, while a non-empty stored list is returned unchanged; the
listing never writes to the record store; and appending a new active
definition makes it appear as the last listed entry of every record,
valued by the stored-match/default/empty resolution. -/
theorem C2_amended_listing (stored : Option (List StoredField))
    (fieldKeys : List FieldKey) (fk : FieldKey)
    (decrypt : VRecord → Option VRecord) (store : List VRecord) :
    (stored = none ∨ stored = some [] → populateDynamicFields [] stored = []) ∧
    (∀ l, populateDynamicFields [] (some l) = l) ∧
    (getRecordsH store decrypt fieldKeys).1 = store ∧
    (populateDynamicFields (fieldKeys ++ [fk]) stored).getLast? =
      some ⟨labelOrName fk, some (resolveValue (stored.getD []) fk)⟩ := by
  refine ⟨?_, ?_, rfl, ?_⟩
  · rintro (h | h) <;> subst h <;> rfl
  · intro l; rfl
  · have hne : (fieldKeys ++ [fk]).isEmpty = false := by
      cases fieldKeys <;> rfl
    simp [populateDynamicFields, hne, List.getLast?_concat]

/-- Claim C2 witness: the amended theorem applied once to an absent
stored list and once to a record whose non-empty stored list matches the
newly appended definition, so the stored-match, default and empty-list
behaviours are all exercised. -/
theorem C2_witness :
    populateDynamicFields [] (none : Option (List StoredField)) = [] ∧
    (populateDynamicFields [⟨"a", some "A", none⟩, ⟨"b", none, some "d"⟩]
      (none : Option (List StoredField))).getLast? = some ⟨"b", some "d"⟩ ∧
    (populateDynamicFields [⟨"a", some "A", none⟩, ⟨"b", some "B", some "d"⟩]
      (some [⟨"B", some "v"⟩])).getLast? = some ⟨"B", some "v"⟩ := by
  have h1 := C2_amended_listing none [⟨"a", some "A", none⟩] ⟨"b", none, some "d"⟩
    (fun r => some r) []
  have h2 := C2_amended_listing (some [⟨"B", some "v"⟩]) [⟨"a", some "A", none⟩]
    ⟨"b", some "B", some "d"⟩ (fun r => some r) []
  exact ⟨h1.1 (Or.inl rfl), h1.2.2.2.trans (by decide), h2.2.2.2.trans (by decide)⟩

/-- Claim C4 (confirmed): the listing maps each fetched record through a
per-record try block; a record whose decryption throws is returned in
its raw stored form, every record whose decryption succeeds is returned
transformed, and the output page always has one entry per fetched
record, so a single decryption failure never fails the listing. The
decryptData helper is not among the sources, so it is quantified as an
arbitrary fallible function. -/
theorem C4_decrypt_fallback (decrypt : VRecord → Option VRecord)
    (fieldKeys : List FieldKey) (records : List VRecord) :
    (decryptRecords decrypt fieldKeys records).length = records.length ∧
    ∀ (i : Nat) (r : VRecord), records[i]? = some r →
      (decrypt r = none → (decryptRecords decrypt fieldKeys records)[i]? = some r) ∧
      (∀ d, decrypt r = some d →
        (decryptRecords decrypt fieldKeys records)[i]? =
          some (listTransform fieldKeys d)) := by
  refine ⟨by simp [decryptRecords], ?_⟩
  intro i r hir
  constructor
  · intro hd
    simp [decryptRecords, List.getElem?_map, hir, hd]
  · intro d hd
    simp [decryptRecords, List.getElem?_map, hir, hd]

/-- Claim C4 witness: a two-record page where decryption throws on the
first record and succeeds on the second. -/
theorem C4_witness :
    (decryptRecords (fun r => if r.rid = 1 then none else some r) []
        [⟨1, none, none, none⟩, ⟨2, none, none, some [⟨"x", some "y"⟩]⟩])[0]? =
      some ⟨1, none, none, none⟩ := by
  have h := (C4_decrypt_fallback (fun r => if r.rid = 1 then none else some r) []
    [⟨1, none, none, none⟩, ⟨2, none, none, some [⟨"x", some "y"⟩]⟩]).2 0
    ⟨1, none, none, none⟩ rfl
  exact h.1 (by decide)

/-- Claim C3 (counterexample): the claim promises a 400 on every
verify-qr request with a malformed Aadhaar number, but when the QR code
resolves no active user the handler answers 404 (the malformed number is
never examined); the external send-OTP operation is still not called. -/
theorem C3_counterexample :
    verifyQrH [] none "123" true (some ⟨"t"⟩) = ⟨[], 404, none, false⟩ ∧
    aadhaarOk "123" = false ∧
    (404 : Nat) ≠ 400 := by
  refine ⟨rfl, by decide, by decide⟩

/-- Claim C3 (amended): a request whose Aadhaar number is not exactly 12
digits after whitespace stripping never triggers the external send-OTP
call on either endpoint; verify-single answers 400, and verify-qr
answers 400 whenever the QR code resolves an active user holding the
qr-code capability, 404 when it resolves no user. -/
theorem C3_amended_reject (store : List VerificationRecord) (a : String) (c : Bool)
    (ext : Option OtpSendDetails) (user : Option QrUser)
    (h : aadhaarOk a = false) :
    (verifySingleH store a c ext).status = 400 ∧
    (verifySingleH store a c ext).externalCalled = false ∧
    (verifyQrH store user a c ext).externalCalled = false ∧
    (∀ u, user = some u → u.moduleAccess.contains "qr-code" = true →
      (verifyQrH store user a c ext).status = 400) ∧
    (user = none → (verifyQrH store user a c ext).status = 404) := by
  refine ⟨?_, ?_, ?_, ?_, ?_⟩
  · simp [verifySingleH, h]
  · simp [verifySingleH, h]
  · cases user with
    | none => rfl
    | some u =>
      simp only [verifyQrH, h]
      split <;> simp
  · intro u hu hq
    subst hu
    have hq2 : "qr-code" ∈ u.moduleAccess := by simpa using hq
    simp [verifyQrH, h, hq2]
  · intro hu
    subst hu
    rfl

/-- Claim C3 witness: a 3-digit Aadhaar number on both endpoints, the QR
one through a user holding the qr-code capability. -/
theorem C3_witness :
    (verifySingleH [] "123" true (some ⟨"t"⟩)).status = 400 ∧
    (verifyQrH [] (some ⟨1, ["qr-code"]⟩) "123" true (some ⟨"t"⟩)).status = 400 := by
  have h := C3_amended_reject [] "123" true (some ⟨"t"⟩) (some ⟨1, ["qr-code"]⟩)
    (by decide)
  exact ⟨h.1, h.2.2.2.1 ⟨1, ["qr-code"]⟩ rfl (by decide)⟩

/-- Claim C5 (confirmed): for an owning requester the PATCH handler
replaces the stored dynamic-field list by the normalized body, so
submitting the same body twice leaves exactly the state and response of
a single submission: the normalize-then-replace update is idempotent. -/
theorem C5_patch_idempotent (uid : Nat) (r : PRecord) (body : Option (List RawEntry))
    (h : r.userId = uid) :
    patchRecordsId uid true ((patchRecordsId uid true (some r) body).2) body =
      patchRecordsId uid true (some r) body := by
  simp [patchRecordsId, h]

/-- Claim C5 witness: the idempotence theorem applied to an owned record
and a body whose entries need trimming, with the resulting stored list
evaluated. -/
theorem C5_witness :
    patchRecordsId 1 true
        ((patchRecordsId 1 true (some ⟨1, [⟨"a", some "b"⟩]⟩)
          (some [RawEntry.obj (some " L ") (some " v ")])).2)
        (some [RawEntry.obj (some " L ") (some " v ")]) =
      patchRecordsId 1 true (some ⟨1, [⟨"a", some "b"⟩]⟩)
        (some [RawEntry.obj (some " L ") (some " v ")]) ∧
    (patchRecordsId 1 true (some ⟨1, [⟨"a", some "b"⟩]⟩)
        (some [RawEntry.obj (some " L ") (some " v ")])).2 =
      some ⟨1, [⟨"L", some "v"⟩]⟩ := by
  refine ⟨C5_patch_idempotent 1 ⟨1, [⟨"a", some "b"⟩]⟩
    (some [RawEntry.obj (some " L ") (some " v ")]) rfl, by decide⟩

/-- Claim C6 (confirmed): on the /records/:id route only the PATCH
method reaches the update handler; every other method, in particular
GET, is answered by the catch-all with status 405 and an Allow header of
PATCH. -/
theorem C6_method_dispatch :
    dispatchRecordsId .get = .methodNotAllowed 405 "PATCH" ∧
    ∀ m, (dispatchRecordsId m = .patchHandler ↔ m = .patch) := by
  refine ⟨rfl, ?_⟩
  intro m
  cases m <;> simp [dispatchRecordsId]

/-- Claim C7 (counterexample): the claim says every caller whose id
differs from the owning userId receives 403 on the authenticated selfie
GET, but an admin caller with a different id is let through and receives
the stored blob (200). -/
theorem C7_counterexample :
    selfieGetH (some (1, some ⟨true, false, false⟩)) 2 (some ⟨2, "admin", []⟩) = 200 ∧
    (1 : Nat) ≠ 2 ∧
    (200 : Nat) ≠ 403 := by
  refine ⟨rfl, by decide, by decide⟩

/-- Claim C7 (amended): on an existing record, a non-owning caller
always receives 403 from PATCH /records/:id and from the selfie upload
when a file is attached (without a file the 400 check fires first), and
a non-admin non-owning caller always receives 403 from the selfie GET
(admin callers bypass the ownership check). -/
theorem C7_amended_owner_gate (uid : Nat) (r : PRecord)
    (body : Option (List RawEntry)) (requester : Option UserInfo)
    (ownerId : Nat) (selfie : Option SelfieBlob) (u : UserInfo)
    (h1 : r.userId ≠ uid) (h2 : u.role ≠ "admin") (h3 : ownerId ≠ uid) :
    (patchRecordsId uid true (some r) body).1 = 403 ∧
    selfieUploadH true (some r) uid requester = 403 ∧
    selfieGetH (some (ownerId, selfie)) uid (some u) = 403 := by
  refine ⟨?_, ?_, ?_⟩
  · simp [patchRecordsId, h1]
  · simp [selfieUploadH, h1]
  · simp [selfieGetH, h2, h3]

/-- Claim C7 witness: a non-owner without the admin role hitting all
three endpoints on a record owned by user 1. -/
theorem C7_witness :
    (patchRecordsId 2 true (some ⟨1, []⟩) none).1 = 403 ∧
    selfieUploadH true (some ⟨1, []⟩) 2 (some ⟨2, "user", []⟩) = 403 ∧
    selfieGetH (some (1, some ⟨true, false, false⟩)) 2 (some ⟨2, "user", []⟩) = 403 :=
  C7_amended_owner_gate 2 ⟨1, []⟩ none (some ⟨2, "user", []⟩) 1
    (some ⟨true, false, false⟩) ⟨2, "user", []⟩ (by decide) (by decide) (by decide)

/-- A 12-digit check never passes on the empty string. -/
theorem aadhaarOk_ne_empty {a : String} (h : aadhaarOk a = true) : a ≠ "" := by
  rintro rfl
  exact absurd h (by decide)

/-- A 6-digit check never passes on the empty string. -/
theorem otpOk_ne_empty {s : String} (h : otpOk s = true) : s ≠ "" := by
  rintro rfl
  exact absurd h (by decide)

/-- Claim C8 (confirmed): POST /verify-single never writes to the record
store on any input, and on a successful send-OTP call it answers 200
carrying the transaction identifier of the external client (whose return
shape is modelled from the spec, the service module being absent). -/
theorem C8_verifySingle_frame (store : List VerificationRecord) (a : String)
    (c : Bool) (d : OtpSendDetails)
    (ha : aadhaarOk a = true) (hc : c = true) :
    (∀ a2 c2 e2, (verifySingleH store a2 c2 e2).store = store) ∧
    verifySingleH store a c (some d) =
      ⟨store, 200, some d.transactionId, true⟩ := by
  constructor
  · intro a2 c2 e2
    unfold verifySingleH
    split
    · rfl
    · split
      · rfl
      · split
        · rfl
        · cases e2 <;> rfl
  · have hne : a ≠ "" := aadhaarOk_ne_empty ha
    simp [verifySingleH, hne, hc, ha]

/-- Claim C8 witness: a valid 12-digit number with consent accepted. -/
theorem C8_witness :
    verifySingleH [] "123456789012" true (some ⟨"txn-1"⟩) =
      ⟨[], 200, some "txn-1", true⟩ :=
  (C8_verifySingle_frame [] "123456789012" true ⟨"txn-1"⟩ (by decide) rfl).2

/-- Claim C9 (confirmed): once validation passes and the external verify
operation returns a response, each of /verify-otp and /verify-otp-qr
persists exactly one new record; its status is verified exactly when the
status field the handler reads equals the VALID sentinel (the nested
apiData status for /verify-otp, the top-level response status for the QR
variant) and is the non-verified terminal status rejected resp. invalid
otherwise. The external client return shape is modelled from the spec. -/
theorem C9_verifyOtp_persist (store store2 : List VerificationRecord) (uid : Nat)
    (a otp txn : String) (dyn : List StoredField) (cf : List (String × String))
    (r : ExtVerifyResponse) (qu : QrUser)
    (ha : aadhaarOk a = true) (ho : otpOk otp = true) (ht : txn ≠ "")
    (hq : qu.moduleAccess.contains "qr-code" = true) :
    (∃ rec0,
      verifyOtpH store uid a otp txn dyn (some r) = (store ++ [rec0], 200) ∧
      (rec0.status = "verified" ↔ (extractApiData r).status = some "VALID") ∧
      (rec0.status = "verified" ∨ rec0.status = "rejected")) ∧
    (∃ rec1,
      verifyOtpQrH store2 (some qu) a otp txn dyn cf (some r) =
        (store2 ++ [rec1], 200) ∧
      (rec1.status = "verified" ↔ r.status = some "VALID") ∧
      (rec1.status = "verified" ∨ rec1.status = "invalid")) := by
  have hna : a ≠ "" := aadhaarOk_ne_empty ha
  have hno : otp ≠ "" := otpOk_ne_empty ho
  have hq2 : "qr-code" ∈ qu.moduleAccess := by simpa using hq
  constructor
  · refine ⟨⟨uid, stripWs a,
      if (extractApiData r).status = some "VALID" then "verified" else "rejected",
      dyn⟩, ?_, ?_, ?_⟩
    · simp [verifyOtpH, hna, hno, ht, ha, ho]
    · by_cases hv : (extractApiData r).status = some "VALID" <;> simp [hv]
    · by_cases hv : (extractApiData r).status = some "VALID" <;> simp [hv]
  · refine ⟨⟨qu.uid, stripWs a,
      if r.status = some "VALID" then "verified" else "invalid",
      dyn ++ cf.map (fun kv => ⟨kv.1, some kv.2⟩)⟩, ?_, ?_, ?_⟩
    · simp [verifyOtpQrH, hna, hno, ht, ha, ho, hq2]
    · by_cases hv : r.status = some "VALID" <;> simp [hv]
    · by_cases hv : r.status = some "VALID" <;> simp [hv]

/-- Claim C9 witness: a passing validation with a VALID provider
response on the authenticated endpoint and a non-VALID top-level status
on the QR endpoint. -/
theorem C9_witness :
    (∃ rec0,
      verifyOtpH [] 7 "123456789012" "123456" "t" [] (some ⟨⟨some "VALID"⟩, none, some "X"⟩) =
        ([] ++ [rec0], 200) ∧
      (rec0.status = "verified" ↔
        (extractApiData ⟨⟨some "VALID"⟩, none, some "X"⟩).status = some "VALID") ∧
      (rec0.status = "verified" ∨ rec0.status = "rejected")) ∧
    (∃ rec1,
      verifyOtpQrH [] (some ⟨9, ["qr-code"]⟩) "123456789012" "123456" "t" [] [("k", "v")]
          (some ⟨⟨some "VALID"⟩, none, some "X"⟩) =
        ([] ++ [rec1], 200) ∧
      (rec1.status = "verified" ↔
        (⟨⟨some "VALID"⟩, none, some "X"⟩ : ExtVerifyResponse).status = some "VALID") ∧
      (rec1.status = "verified" ∨ rec1.status = "invalid")) :=
  C9_verifyOtp_persist [] [] 7 "123456789012" "123456" "t" [] [("k", "v")]
    ⟨⟨some "VALID"⟩, none, some "X"⟩ ⟨9, ["qr-code"]⟩
    (by decide) (by decide) (by decide) (by decide)

/-- Claim C10 (confirmed): a PATCH by the owner whose body carries no
dynamicFields array (missing, null, or any non-array value, all of which
fail the Array.isArray guard) succeeds with 200 and replaces the stored
dynamic-field list with the empty list; the body is never rejected. -/
theorem C10_patch_nonarray (uid : Nat) (r : PRecord) (h : r.userId = uid) :
    patchRecordsId uid true (some r) none =
      (200, some { r with dynamicFields := [] }) := by
  simp [patchRecordsId, normalizeFields, h]

/-- Claim C10 witness: an owner patching a record holding one stored
entry with a body lacking a dynamicFields array. -/
theorem C10_witness :
    patchRecordsId 3 true (some ⟨3, [⟨"a", some "b"⟩]⟩) none =
      (200, some ⟨3, []⟩) :=
  C10_patch_nonarray 3 ⟨3, [⟨"a", some "b"⟩]⟩ rfl

end AadhaarKyc
